import Mathlib

/-!
Verification of the state/rules engine of the Forest Done Log habit tracker
(source: src/app.py). Dates are modelled as integer day numbers, so that
subtracting two dates gives the gap in whole days, as Python date
subtraction does. Randomness (random.randint, random.choice,
random.getrandbits) is modelled by passing the random draw as an explicit
natural-number parameter and reducing it into the required range exactly as
a uniform draw would land there.
-/

namespace Forest

/-- DATA_FILE constant from app.py line 9. -/
def DATA_FILE : String := "forest_data.json"

/-- The three effort levels offered by the select slider (app.py line 162). -/
inductive Effort where
  | seed
  | sapling
  | oak
deriving DecidableEq, Repr

/-- The points_map of app.py line 169: inclusive point range per effort. -/
def points_map (e : Effort) : Nat × Nat :=
  match e with
  | .seed => (5, 15)
  | .sapling => (20, 50)
  | .oak => (60, 150)

/-- random.randint low high: a uniform draw r reduced into the inclusive
range by low + r mod (high - low + 1). -/
def randint (low high r : Nat) : Nat :=
  low + r % (high - low + 1)

/-- Points earned for a post (app.py lines 169 to 171). -/
def computePoints (e : Effort) (r : Nat) : Nat :=
  randint (points_map e).1 (points_map e).2 r

/-- get_level from app.py lines 39 to 41: level based on 500 points per level. -/
def get_level (points : Nat) : Nat :=
  points / 500 + 1

/-- Common tree pool (app.py line 45). -/
def common : List String := ["🌲", "🌳", "🌿"]

/-- Uncommon tree pool (app.py line 46). -/
def uncommon : List String := ["🌴", "🌵", "🎍"]

/-- Rare tree pool (app.py line 47). -/
def rare : List String := ["🌸", "🍂", "🍄", "🍀"]

/-- Legendary tree pool (app.py line 48). -/
def legendary : List String := ["🎋", "🎐", "⛲"]

/-- The cumulative unlocked pool built by get_tree_for_level
(app.py lines 50 to 53). -/
def get_tree_pool (level : Nat) : List String :=
  common ++ (if level ≥ 3 then uncommon else [])
         ++ (if level ≥ 7 then rare else [])
         ++ (if level ≥ 15 then legendary else [])

/-- get_tree_for_level (app.py lines 43 to 54): random.choice over the
unlocked pool, the draw r reduced modulo the pool size. -/
def get_tree_for_level (level : Nat) (r : Nat) : String :=
  (get_tree_pool level).getD (r % (get_tree_pool level).length) ""

/-- Weekday names; day_name of a date is derived from the date
(strftime at app.py line 183). -/
def day_names : List String :=
  ["Monday", "Tuesday", "Wednesday", "Thursday", "Friday", "Saturday", "Sunday"]

/-- Weekday name of an integer day number. -/
def day_name (d : Int) : String :=
  day_names.getD (d % 7).toNat ""

/-- One log entry (the dict built at app.py lines 180 to 188). -/
structure LogEntry where
  id : Nat
  date : Int
  dayName : String
  task : String
  points : Nat
  tree : String
  effort : Effort
deriving DecidableEq, Repr

/-- The persisted profile state (app.py lines 26 to 31). -/
structure Profile where
  total_points : Nat
  streak : Nat
  last_post_date : Option Int
  logs : List LogEntry
deriving DecidableEq, Repr

/-- The default profile returned by load_data when no file exists
(app.py lines 26 to 31). -/
def defaultProfile : Profile :=
  { total_points := 0, streak := 0, last_post_date := none, logs := [] }

/-- Sum of the points fields over a log list. -/
def sumPoints (l : List LogEntry) : Nat :=
  (l.map (fun e => e.points)).sum

/-- update_streak_logic from app.py lines 56 to 67: reset the streak to 0
when more than one day passed since the last post. -/
def update_streak_logic (today : Int) (p : Profile) : Profile :=
  match p.last_post_date with
  | none => p
  | some last_date =>
      if today - last_date > 1 then { p with streak := 0 } else p

/-- The state change performed by a successful post
(app.py lines 168 to 194): compute points, apply the streak increment rule
against the pre-transition last_post_date, pick a tree using the level of
the pre-transition total_points, build the entry, insert it at the head,
add the points and set last_post_date to today. -/
def applyPost (p : Profile) (task : String) (e : Effort) (today : Int)
    (rPts rId rTree : Nat) : Profile :=
  let pts_earned := computePoints e rPts
  let streak2 := if p.last_post_date ≠ some today then p.streak + 1 else p.streak
  let current_level := get_level p.total_points
  let tree_icon := get_tree_for_level current_level rTree
  let new_entry : LogEntry :=
    { id := rId % 2 ^ 32, date := today, dayName := day_name today,
      task := task, points := pts_earned, tree := tree_icon, effort := e }
  { total_points := p.total_points + pts_earned,
    streak := streak2,
    last_post_date := some today,
    logs := new_entry :: p.logs }

/-- The PostTask command (app.py lines 166 to 198): an empty task text is
rejected (the Python truthiness test on task_text at line 167) and nothing
changes; otherwise the state change of applyPost happens and is saved. -/
def postTask (p : Profile) (task : String) (e : Effort) (today : Int)
    (rPts rId rTree : Nat) : Option Profile :=
  if task = "" then none
  else some (applyPost p task e today rPts rId rTree)

/-- One post command with its random draws, for reasoning about sequences
of posts. -/
structure PostCmd where
  task : String
  effort : Effort
  today : Int
  rPts : Nat
  rId : Nat
  rTree : Nat
deriving DecidableEq, Repr

/-- Run one command: a rejected post leaves the state unchanged. -/
def step (p : Profile) (c : PostCmd) : Profile :=
  (postTask p c.task c.effort c.today c.rPts c.rId c.rTree).getD p

/-- Run a sequence of post commands from a starting profile. -/
def runPosts (p : Profile) (cs : List PostCmd) : Profile :=
  cs.foldl step p

/-- The trailing week, oldest first (app.py line 209): the 7 days from
today - 6 through today. -/
def last7Days (today : Int) : List Int :=
  (List.range 7).map (fun (i : Nat) => today - 6 + (i : Int))

/-- The weekly momentum series (app.py lines 204 to 215): only rendered
when the log list is non-empty, in which case each of the 7 trailing days
is paired with the sum of points of the entries dated that day. -/
def weeklySeries (logs : List LogEntry) (today : Int) :
    Option (List (Int × Nat)) :=
  if logs.isEmpty then none
  else some ((last7Days today).map
    (fun d => (d, sumPoints (logs.filter (fun e => e.date = d)))))

/-- File system operations, to state what save_data does to the file. -/
inductive FsOp where
  | openTrunc (path : String)
  | write (path : String) (content : String)
  | rename (src : String) (dst : String)
deriving DecidableEq, Repr

/-- save_data from app.py lines 33 to 36: open(DATA_FILE, "w") truncates
the file, then json.dump writes the serialized state into it. -/
def save_data_ops (content : String) : List FsOp :=
  [FsOp.openTrunc DATA_FILE, FsOp.write DATA_FILE content]

/-- Whether an operation list contains a rename. -/
def hasRename (ops : List FsOp) : Bool :=
  ops.any (fun op => match op with | .rename _ _ => true | _ => false)

/-- Run file operations over a file system (path to optional content). -/
def runOps (ops : List FsOp) (fs : String → Option String) :
    String → Option String :=
  ops.foldl
    (fun s op =>
      match op with
      | .openTrunc path => fun q => if q = path then some "" else s q
      | .write path content => fun q => if q = path then some content else s q
      | .rename src dst =>
          fun q => if q = dst then s src else if q = src then none else s q)
    fs

/-- An atomic save in the sense of the spec: write the content to a
temporary file, then rename it onto the data file. -/
def isAtomicSave (ops : List FsOp) : Prop :=
  ∃ tmp content, tmp ≠ DATA_FILE ∧
    ops = [FsOp.openTrunc tmp, FsOp.write tmp content, FsOp.rename tmp DATA_FILE]

/-! Helper lemmas shared by the claim theorems. -/

lemma postTask_eq_some {p : Profile} {task : String} {e : Effort} {today : Int}
    {rPts rId rTree : Nat} {p' : Profile}
    (h : postTask p task e today rPts rId rTree = some p') :
    task ≠ "" ∧ p' = applyPost p task e today rPts rId rTree := by
  unfold postTask at h
  split at h
  · exact absurd h (by simp)
  · exact ⟨by assumption, (Option.some.inj h).symm⟩

lemma applyPost_total_points (p : Profile) (task : String) (e : Effort)
    (today : Int) (rPts rId rTree : Nat) :
    (applyPost p task e today rPts rId rTree).total_points
      = p.total_points + computePoints e rPts := rfl

lemma applyPost_logs (p : Profile) (task : String) (e : Effort)
    (today : Int) (rPts rId rTree : Nat) :
    (applyPost p task e today rPts rId rTree).logs
      = { id := rId % 2 ^ 32, date := today, dayName := day_name today,
          task := task, points := computePoints e rPts,
          tree := get_tree_for_level (get_level p.total_points) rTree,
          effort := e } :: p.logs := rfl

lemma applyPost_last_post_date (p : Profile) (task : String) (e : Effort)
    (today : Int) (rPts rId rTree : Nat) :
    (applyPost p task e today rPts rId rTree).last_post_date = some today := rfl

lemma applyPost_streak (p : Profile) (task : String) (e : Effort)
    (today : Int) (rPts rId rTree : Nat) :
    (applyPost p task e today rPts rId rTree).streak
      = if p.last_post_date ≠ some today then p.streak + 1 else p.streak := rfl

lemma sumPoints_cons (e : LogEntry) (l : List LogEntry) :
    sumPoints (e :: l) = e.points + sumPoints l := by
  simp [sumPoints]

/-- The total-points invariant of the profile. -/
def totalInv (p : Profile) : Prop :=
  p.total_points = sumPoints p.logs

lemma step_preserves_totalInv (p : Profile) (c : PostCmd)
    (h : totalInv p) : totalInv (step p c) := by
  unfold step
  cases hpost : postTask p c.task c.effort c.today c.rPts c.rId c.rTree with
  | none => simpa using h
  | some p' =>
      obtain ⟨-, rfl⟩ := postTask_eq_some hpost
      unfold totalInv at h ⊢
      rw [Option.getD_some, applyPost_total_points, applyPost_logs,
        sumPoints_cons, h]
      simp [Nat.add_comm]

lemma runPosts_preserves_totalInv (cs : List PostCmd) :
    ∀ p : Profile, totalInv p → totalInv (runPosts p cs) := by
  induction cs with
  | nil => intro p h; simpa [runPosts] using h
  | cons c cs ih =>
      intro p h
      have h1 : totalInv (step p c) := step_preserves_totalInv p c h
      simpa [runPosts, List.foldl_cons] using ih (step p c) h1

/-- Membership of the chosen tree in the unlocked pool. -/
lemma get_tree_for_level_mem (level r : Nat) :
    get_tree_for_level level r ∈ get_tree_pool level := by
  have hlen : 0 < (get_tree_pool level).length := by
    simp [get_tree_pool, common]
  have hlt : r % (get_tree_pool level).length < (get_tree_pool level).length :=
    Nat.mod_lt _ hlen
  unfold get_tree_for_level
  rw [List.getD_eq_getElem?_getD, List.getElem?_eq_getElem hlt]
  exact List.getElem_mem hlt

/-! The claim theorems. -/

/-- C1: after every PostTask command completes, total_points equals the sum
of the points fields over all entries in logs; this holds for every
sequence of posts starting from the default profile (every prefix of a
sequence is itself a sequence, so the invariant holds after each command). -/
theorem c1_total_points_invariant (cs : List PostCmd) :
    (runPosts defaultProfile cs).total_points
      = sumPoints (runPosts defaultProfile cs).logs :=
  runPosts_preserves_totalInv cs defaultProfile rfl

/-- C2 counterexample: the task text consisting of a single space is
whitespace-only yet is accepted by postTask, which mutates the state: the
default profile gains a log entry. The claim that whitespace-only text is
rejected with no state mutation is therefore false on the code, which only
tests Python truthiness of the text. -/
theorem c2_whitespace_accepted_cex :
    (" ").toList = [' ']
      ∧ (postTask defaultProfile " " Effort.sapling 0 0 0 0).map
          (fun q => q.logs.length) = some 1
      ∧ defaultProfile.logs.length = 0 := by
  refine ⟨by decide, ?_, rfl⟩
  rfl

/-- C2 amended: postTask rejects exactly the empty task text: on empty text
it returns none, and the session state is unchanged (a step with an empty
task is the identity, and nothing is persisted); whitespace-only non-empty
text is accepted like any other text. -/
theorem c2_empty_rejected (p : Profile) (c : PostCmd) (h : c.task = "") :
    postTask p c.task c.effort c.today c.rPts c.rId c.rTree = none
      ∧ step p c = p := by
  constructor
  · simp [postTask, h]
  · simp [step, postTask, h]

/-- C2 witness: the empty task on the default profile is rejected and the
state is unchanged. -/
theorem c2_empty_rejected_witness :
    postTask defaultProfile "" Effort.seed 0 0 0 0 = none
      ∧ step defaultProfile ⟨"", Effort.seed, 0, 0, 0, 0⟩ = defaultProfile :=
  c2_empty_rejected defaultProfile ⟨"", Effort.seed, 0, 0, 0, 0⟩ rfl

/-- C3: the streak increment rule inside PostTask. When the pre-transition
last_post_date differs from today the streak increases by exactly 1; when
it equals today the streak is unchanged; in either case the entry is still
appended and its points added, and a second post on the same day leaves the
streak where the first post put it. -/
theorem c3_streak_increment (p : Profile) (task : String) (e : Effort)
    (today : Int) (rPts rId rTree : Nat) (p' : Profile)
    (h : postTask p task e today rPts rId rTree = some p') :
    (p.last_post_date ≠ some today → p'.streak = p.streak + 1)
      ∧ (p.last_post_date = some today → p'.streak = p.streak)
      ∧ p'.logs.length = p.logs.length + 1
      ∧ p'.total_points = p.total_points + computePoints e rPts
      ∧ p'.last_post_date = some today
      ∧ (∀ (task2 : String) (e2 : Effort) (rP2 rI2 rT2 : Nat) (p'' : Profile),
          postTask p' task2 e2 today rP2 rI2 rT2 = some p'' →
          p''.streak = p'.streak) := by
  obtain ⟨-, rfl⟩ := postTask_eq_some h
  refine ⟨?_, ?_, ?_, applyPost_total_points p task e today rPts rId rTree,
    applyPost_last_post_date p task e today rPts rId rTree, ?_⟩
  · intro hne
    rw [applyPost_streak]
    simp [hne]
  · intro heq
    rw [applyPost_streak]
    simp [heq]
  · rw [applyPost_logs]
    simp
  · intro task2 e2 rP2 rI2 rT2 p'' h2
    obtain ⟨-, rfl⟩ := postTask_eq_some h2
    rw [applyPost_streak, applyPost_last_post_date]
    simp

/-- C3 witness: a first post on a fresh profile (last_post_date absent, so
different from today) raises the streak from 0 to 1. -/
theorem c3_streak_increment_witness :
    (applyPost defaultProfile "t" Effort.seed 0 0 0 0).streak
      = defaultProfile.streak + 1 := by
  have h := c3_streak_increment defaultProfile "t" Effort.seed 0 0 0 0
    (applyPost defaultProfile "t" Effort.seed 0 0 0 0) rfl
  exact h.1 (by decide)

/-- C4: the session-load lapse check. An absent last_post_date is a no-op;
otherwise with gap = today - last_post_date in whole days, the streak is
set to 0 when gap > 1 (only the streak field changes) and the profile is
left unchanged when the gap is 0 or 1. -/
theorem c4_lapse_check (p : Profile) (today : Int) :
    (p.last_post_date = none → update_streak_logic today p = p)
      ∧ (∀ last_date : Int, p.last_post_date = some last_date →
          ((today - last_date > 1 →
              update_streak_logic today p = { p with streak := 0 })
            ∧ ((today - last_date = 0 ∨ today - last_date = 1) →
              update_streak_logic today p = p))) := by
  constructor
  · intro h
    simp [update_streak_logic, h]
  · intro last_date hl
    constructor
    · intro hgt
      simp [update_streak_logic, hl, hgt]
    · intro hle
      have hng : ¬ (today - last_date > 1) := by omega
      simp [update_streak_logic, hl, hng]

/-- C4 witness: a profile whose last post was 3 days ago has its streak
reset to 0 by the lapse check, with every other field untouched. -/
theorem c4_lapse_check_witness :
    update_streak_logic 3
        { total_points := 40, streak := 5, last_post_date := some 0, logs := [] }
      = { total_points := 40, streak := 0, last_post_date := some 0, logs := [] } := by
  have h := c4_lapse_check
    { total_points := 40, streak := 5, last_post_date := some 0, logs := [] } 3
  exact (h.2 0 rfl).1 (by decide)

/-- C5: get_level is floor division by 500 plus one, hence monotonically
non-decreasing, with the stated values at 0, 499, 500, 999 and at every
multiple of 500. -/
theorem c5_level_formula :
    (∀ p : Nat, get_level p = p / 500 + 1)
      ∧ (∀ p q : Nat, p ≤ q → get_level p ≤ get_level q)
      ∧ get_level 0 = 1 ∧ get_level 499 = 1 ∧ get_level 500 = 2
      ∧ get_level 999 = 2 ∧ (∀ k : Nat, get_level (500 * k) = k + 1) := by
  refine ⟨fun p => rfl, ?_, rfl, rfl, rfl, rfl, ?_⟩
  · intro p q h
    unfold get_level
    omega
  · intro k
    unfold get_level
    omega

/-- C5 witness: monotonicity applied at 100 and 700. -/
theorem c5_level_formula_witness : get_level 100 ≤ get_level 700 :=
  c5_level_formula.2.1 100 700 (by decide)

/-- C6: the reward symbol always lies in the cumulative unlocked pool for
the level computed from the pre-transition total_points: the pool at level
2 is exactly the 3 common symbols, the pool at level 10 is exactly the 10
common, uncommon and rare symbols and never contains a legendary symbol,
and the entry created by postTask carries a tree drawn with the level of
the points total before the points of this post were added. -/
theorem c6_tree_from_unlocked_pool :
    (∀ level r : Nat, get_tree_for_level level r ∈ get_tree_pool level)
      ∧ get_tree_pool 2 = common
      ∧ common.length = 3
      ∧ get_tree_pool 10 = common ++ uncommon ++ rare
      ∧ (common ++ uncommon ++ rare).length = 10
      ∧ (∀ r : Nat, get_tree_for_level 10 r ∉ legendary)
      ∧ (∀ (p : Profile) (task : String) (e : Effort) (today : Int)
          (rPts rId rTree : Nat) (p' : Profile),
          postTask p task e today rPts rId rTree = some p' →
          p'.logs.head?.map (fun en => en.tree)
            = some (get_tree_for_level (get_level p.total_points) rTree)) := by
  refine ⟨get_tree_for_level_mem, by decide, by decide, by decide, by decide,
    ?_, ?_⟩
  · intro r
    have hm := get_tree_for_level_mem 10 r
    have hall : ∀ t ∈ get_tree_pool 10, t ∉ legendary := by decide
    exact hall _ hm
  · intro p task e today rPts rId rTree p' h
    obtain ⟨-, rfl⟩ := postTask_eq_some h
    rw [applyPost_logs]
    simp

/-- C6 witness: on a successful first post from the default profile, the
stored tree is the one drawn for the level of the pre-transition points
total. -/
theorem c6_tree_from_unlocked_pool_witness :
    (applyPost defaultProfile "t" Effort.seed 0 0 0 0).logs.head?.map
        (fun en => en.tree)
      = some (get_tree_for_level (get_level defaultProfile.total_points) 0) :=
  c6_tree_from_unlocked_pool.2.2.2.2.2.2 defaultProfile "t" Effort.seed 0 0 0 0
    (applyPost defaultProfile "t" Effort.seed 0 0 0 0) rfl

/-- C7: the effort ranges are Seed 5 to 15, Sapling 20 to 50, Oak 60 to
150, and for every effort and every random draw the awarded points lie in
the mapped inclusive range; the awarded points are exactly what a
successful post adds to total_points. -/
theorem c7_points_in_range :
    points_map Effort.seed = (5, 15)
      ∧ points_map Effort.sapling = (20, 50)
      ∧ points_map Effort.oak = (60, 150)
      ∧ (∀ (e : Effort) (r : Nat),
          (points_map e).1 ≤ computePoints e r
            ∧ computePoints e r ≤ (points_map e).2)
      ∧ (∀ (p : Profile) (task : String) (e : Effort) (today : Int)
          (rPts rId rTree : Nat),
          (applyPost p task e today rPts rId rTree).total_points
            = p.total_points + computePoints e rPts) := by
  refine ⟨rfl, rfl, rfl, ?_, applyPost_total_points⟩
  intro e r
  cases e <;> refine ⟨?_, ?_⟩ <;>
    simp only [computePoints, randint, points_map] <;> omega

lemma getD_map_range {α : Type} (f : Nat → α) (n i : Nat) (hi : i < n)
    (d : α) : ((List.range n).map f).getD i d = f i := by
  have hlt : i < ((List.range n).map f).length := by simpa using hi
  rw [List.getD_eq_getElem?_getD, List.getElem?_eq_getElem hlt]
  simp

/-- C8 counterexample: on an empty log the code renders no weekly series at
all (the aggregation is guarded by a non-empty check), so no 7-bucket
output is produced, contradicting the claim that the output has length 7
even for an empty log. -/
theorem c8_weekly_series_cex : weeklySeries ([] : List LogEntry) 0 = none := rfl

/-- C8 amended: for every NON-EMPTY log list and every today, the weekly
series has exactly 7 buckets, one per calendar day from today - 6 through
today inclusive in chronological order, each bucket the sum of points over
entries dated that day and 0 for days with no entries; on an empty log the
code skips the aggregation and produces no series. -/
theorem c8_weekly_series (logs : List LogEntry) (today : Int)
    (h : logs ≠ []) :
    ∃ bs : List (Int × Nat), weeklySeries logs today = some bs
      ∧ bs.length = 7
      ∧ (∀ i : Nat, i < 7 →
          bs.getD i (0, 0)
            = (today - 6 + (i : Int),
               sumPoints (logs.filter (fun e => e.date = today - 6 + (i : Int)))))
      ∧ (∀ i : Nat, i < 7 →
          (∀ e ∈ logs, e.date ≠ today - 6 + (i : Int)) →
          (bs.getD i (0, 0)).2 = 0) := by
  refine ⟨(List.range 7).map
    (fun (i : Nat) => (today - 6 + (i : Int),
      sumPoints (logs.filter (fun e => e.date = today - 6 + (i : Int))))),
    ?_, ?_, ?_, ?_⟩
  · simp [weeklySeries, h, last7Days, List.map_map, Function.comp]
  · simp
  · intro i hi
    rw [getD_map_range _ 7 i hi]
  · intro i hi hnone
    rw [getD_map_range _ 7 i hi]
    have hfil : logs.filter (fun e => e.date = today - 6 + (i : Int)) = [] := by
      simp only [List.filter_eq_nil_iff]
      intro e he
      simpa using hnone e he
    simp [hfil, sumPoints]

/-- C8 witness: one entry dated day 5, viewed on day 5, yields a series of
exactly 7 buckets. -/
theorem c8_weekly_series_witness :
    ∃ bs : List (Int × Nat),
      weeklySeries [⟨0, 5, "Friday", "t", 7, "🌲", Effort.seed⟩] 5 = some bs
        ∧ bs.length = 7 := by
  obtain ⟨bs, h1, h2, -, -⟩ :=
    c8_weekly_series [⟨0, 5, "Friday", "t", 7, "🌲", Effort.seed⟩] 5 (by simp)
  exact ⟨bs, h1, h2⟩

/-- C9 counterexample: save_data performs no rename at all: its effect is
an in-place truncating open of the data file followed by one write, and it
is not of the write-to-temp-then-rename form; interrupting it after the
truncating open (the one-operation prefix) leaves the data file empty,
destroying the previously saved state. -/
theorem c9_not_atomic_cex :
    ¬ isAtomicSave (save_data_ops "x")
      ∧ hasRename (save_data_ops "x") = false
      ∧ runOps ((save_data_ops "x").take 1)
          (fun _ => some "old") DATA_FILE = some "" := by
  refine ⟨?_, rfl, by simp [runOps, save_data_ops]⟩
  rintro ⟨tmp, c, hne, heq⟩
  simp [save_data_ops] at heq

/-- C9 amended: save_data overwrites the data file in place: it opens the
file truncating it and writes the serialized state, with no temporary file
and no rename; an uninterrupted save leaves the file holding exactly the
serialized content, but an interruption between the truncating open and
the write leaves an empty file, so the save is not atomic against
interruption. -/
theorem c9_save_overwrites_in_place (content : String)
    (fs : String → Option String) :
    save_data_ops content
        = [FsOp.openTrunc DATA_FILE, FsOp.write DATA_FILE content]
      ∧ hasRename (save_data_ops content) = false
      ∧ runOps (save_data_ops content) fs DATA_FILE = some content
      ∧ runOps ((save_data_ops content).take 1) fs DATA_FILE = some "" := by
  refine ⟨rfl, rfl, ?_, ?_⟩
  · simp [runOps, save_data_ops]
  · simp [runOps, save_data_ops]

/-- C10: the lapse reset lives only in the session-load check, never inside
PostTask: posting when last_post_date is more than one day before today
still increments the stale streak by 1, even though the lapse check, had it
been run at that moment, would have reset the streak to 0. -/
theorem c10_no_lapse_reset_inside_post (p : Profile) (d : Int)
    (task : String) (e : Effort) (today : Int) (rPts rId rTree : Nat)
    (p' : Profile) (hd : p.last_post_date = some d) (hgap : today - d > 1)
    (h : postTask p task e today rPts rId rTree = some p') :
    p'.streak = p.streak + 1
      ∧ update_streak_logic today p = { p with streak := 0 } := by
  obtain ⟨-, rfl⟩ := postTask_eq_some h
  constructor
  · rw [applyPost_streak]
    have hne : p.last_post_date ≠ some today := by
      rw [hd]
      intro hc
      have : d = today := by simpa using hc
      omega
    simp [hne]
  · simp [update_streak_logic, hd, hgap]

/-- C10 witness: a profile whose last post was on day 0 with streak 5,
posting on day 10, ends with streak 6 while the lapse check at day 10
would have reset it to 0. -/
theorem c10_no_lapse_reset_inside_post_witness :
    (applyPost
        { total_points := 40, streak := 5, last_post_date := some 0, logs := [] }
        "t" Effort.seed 10 0 0 0).streak = 5 + 1
      ∧ update_streak_logic 10
          { total_points := 40, streak := 5, last_post_date := some 0, logs := [] }
        = { total_points := 40, streak := 0, last_post_date := some 0, logs := [] } :=
  c10_no_lapse_reset_inside_post
    { total_points := 40, streak := 5, last_post_date := some 0, logs := [] }
    0 "t" Effort.seed 10 0 0 0
    (applyPost
      { total_points := 40, streak := 5, last_post_date := some 0, logs := [] }
      "t" Effort.seed 10 0 0 0)
    rfl (by omega) rfl

end Forest
